import Mathlib

/-!
Shallow embedding of the replica-set monitor and routing client of
src/client/dbclient_rs.cpp, together with theorems settling the claims
about it.  Pure functions of the C++ become Lean functions; the monitor's
mutable fields (`_nodes`, `_master`) become an explicit state record that
every operation threads through; network I/O (connections, `isMaster`,
`replSetGetStatus`, `auth`) is modelled by a `World` oracle mapping a host
address to the behaviour of a connection to it; C++ exceptions become
`Option`/`Except` values.
-/

set_option autoImplicit false

namespace MongoRS

/-- Reply document of the isMaster handshake, as consumed by
ReplicaSetMonitor::_checkConnection: the isMaster boolean plus the optional
hosts array, passives array and primary string (absent or wrongly typed
fields are None, matching the dynamic type checks in the C++). -/
structure IsMasterReply where
  isMaster : Bool
  hosts : Option (List String)
  passives : Option (List String)
  primary : Option String
deriving Repr, DecidableEq

/-- One entry of the replSetGetStatus members array, as consumed by
ReplicaSetMonitor::_checkStatus: name, health and state (numbers modelled
as integers). -/
structure MemberEntry where
  name : String
  health : Int
  state : Int
deriving Repr, DecidableEq

/-- Behaviour of a connection to one host address.  connectOk models
DBClientConnection::connect succeeding; isMasterReply is None when the
isMaster call throws; statusMembers is None when replSetGetStatus fails or
its reply has no members array of the right type. -/
structure ConnBehavior where
  connectOk : Bool
  isMasterReply : Option IsMasterReply
  statusMembers : Option (List MemberEntry)

/-- The network: behaviour of a connection to each host address. -/
def World : Type := String → ConnBehavior

/-- One entry of ReplicaSetMonitor::_nodes.  The connection handle is
identified with the address it was opened against.  The ok field's initial
value is modelled from the spec (the Node constructor lives in the header,
which is not part of the sources): ok is initially true. -/
structure Node where
  addr : String
  ok : Bool
deriving Repr, DecidableEq

instance : Inhabited Node := ⟨⟨"", false⟩⟩

/-- Mutable state of one ReplicaSetMonitor: set name, node table, and the
index of the master (-1 when unknown). -/
structure RSMState where
  name : String
  nodes : List Node
  master : Int
deriving Repr, DecidableEq

/-- ReplicaSetMonitor::_find: linear scan of the node table by address
equality, returning the index or -1. -/
def rsmFind (nodes : List Node) (server : String) : Int :=
  match nodes.findIdx? (fun n => n.addr == server) with
  | some i => (i : Int)
  | none => -1

/-- Write the ok flag of the node at index i (the address is untouched). -/
def setNodeOk (nodes : List Node) (i : Nat) (v : Bool) : List Node :=
  nodes.set i ⟨(nodes.getD i default).addr, v⟩

/-- Member loop of ReplicaSetMonitor::_checkStatus.  For each entry the
C++ runs: m = _find(name); if (m <= 0) continue; then sets nodes[m].ok to
true when health == 1 and state is 1 or 2, else to false.  Note the
faithful m <= 0 test: a node found at index 0 is skipped exactly like a
node that is not found at all (-1). -/
def checkStatusMembers : List Node → List MemberEntry → List Node
  | nodes, [] => nodes
  | nodes, member :: rest =>
    let m := rsmFind nodes member.name
    let nodes1 :=
      if m ≤ 0 then nodes
      else if member.health = 1 ∧ (member.state = 1 ∨ member.state = 2) then
        setNodeOk nodes m.toNat true
      else
        setNodeOk nodes m.toNat false
    checkStatusMembers nodes1 rest

/-- ReplicaSetMonitor::_checkStatus: run replSetGetStatus on the admin
database; on failure or a missing/mistyped members array return with the
table unchanged, otherwise run the member loop. -/
def rsmCheckStatus (nodes : List Node) (status : Option (List MemberEntry)) : List Node :=
  match status with
  | none => nodes
  | some members => checkStatusMembers nodes members

/-- ReplicaSetMonitor::_checkHosts: for each listed host not already in the
table, open a probe connection (its connect result is ignored), append a
Node, and set changed. -/
def rsmCheckHosts : List Node → List String → Bool → List Node × Bool
  | nodes, [], changed => (nodes, changed)
  | nodes, toCheck :: rest, changed =>
    if 0 ≤ rsmFind nodes toCheck then rsmCheckHosts nodes rest changed
    else rsmCheckHosts (nodes ++ [⟨toCheck, true⟩]) rest true

/-- Result of one ReplicaSetMonitor::_checkConnection call: the node table
after the updates, the isMaster boolean returned, the value of the caller's
maybePrimary reference parameter after the call, and how many times the
ConfigChangeHook was invoked during the call. -/
structure CheckResult where
  nodes : List Node
  isMaster : Bool
  maybePrimaryOut : String
  hookCalls : Nat
deriving Repr, DecidableEq

/-- Body of the try block of _checkConnection once the isMaster reply is at
hand: incorporate the hosts array (when present) and then the passives
array (when present) through _checkHosts, then run _checkStatus; returns
the updated table and the changed flag. -/
def checkConnUpdate (nodes : List Node) (o : IsMasterReply)
    (status : Option (List MemberEntry)) : List Node × Bool :=
  let u1 : List Node × Bool :=
    match o.hosts with
    | some hs => rsmCheckHosts nodes hs false
    | none => (nodes, false)
  let u2 : List Node × Bool :=
    match o.passives with
    | some ps => rsmCheckHosts u1.1 ps u1.2
    | none => u1
  (rsmCheckStatus u2.1 status, u2.2)

/-- ReplicaSetMonitor::_checkConnection.  When the isMaster call throws,
the exception is caught: nothing changed and false is returned.  The C++
declares a fresh local string named maybePrimary inside the try block that
shadows the reference parameter, so the primary field of the reply is
stored only into that local and the caller's string is never written:
maybePrimaryOut always equals the value the caller passed in.  The hook is
invoked (at most once, at the end) exactly when a hook is registered and
the changed flag was set. -/
def checkConnection (w : World) (hook : Bool) (nodes : List Node)
    (connAddr : String) (maybePrimaryIn : String) : CheckResult :=
  match (w connAddr).isMasterReply with
  | none =>
    { nodes := nodes, isMaster := false, maybePrimaryOut := maybePrimaryIn,
      hookCalls := 0 }
  | some o =>
    let u := checkConnUpdate nodes o (w connAddr).statusMembers
    { nodes := u.1, isMaster := o.isMaster, maybePrimaryOut := maybePrimaryIn,
      hookCalls := if u.2 && hook then 1 else 0 }

/-- Inner node loop of ReplicaSetMonitor::_check for one retry round.  The
C++ loop condition re-reads _nodes.size(), which can grow while the loop
runs (checks discover new hosts), so the recursion carries explicit fuel;
every claim proved below holds for every fuel value.  Arguments: fuel, the
loop index i, the triedQuickCheck flag, the monitor state.  Returns the
state, whether a master was found (the early return), and the
triedQuickCheck flag (it is declared outside the retry loop and survives
into the second round). -/
def checkLoop (w : World) (hook : Bool) :
    Nat → Nat → Bool → RSMState → RSMState × Bool × Bool
  | 0, _, tried, st => (st, false, tried)
  | fuel + 1, i, tried, st =>
    if i < st.nodes.length then
      let a := (st.nodes.getD i default).addr
      let cr := checkConnection w hook st.nodes a ""
      let st1 : RSMState := { st with nodes := cr.nodes }
      if cr.isMaster then
        ({ st1 with master := (i : Int) }, true, tried)
      else if ¬ tried ∧ cr.maybePrimaryOut ≠ "" then
        let x := rsmFind st1.nodes cr.maybePrimaryOut
        if 0 ≤ x then
          let addrX := (st1.nodes.getD x.toNat default).addr
          let cr2 := checkConnection w hook st1.nodes addrX ""
          let st2 : RSMState := { st1 with nodes := cr2.nodes }
          if cr2.isMaster then ({ st2 with master := x }, true, true)
          else checkLoop w hook fuel (i + 1) true st2
        else checkLoop w hook fuel (i + 1) tried st1
      else checkLoop w hook fuel (i + 1) tried st1
    else (st, false, tried)

/-- ReplicaSetMonitor::_check: two rounds of the node loop (retry < 2),
each starting at index 0; the triedQuickCheck flag persists across rounds;
return as soon as a round reports a master. -/
def rsmCheck (w : World) (hook : Bool) (fuel : Nat) (st : RSMState) : RSMState :=
  let r1 := checkLoop w hook fuel 0 false st
  if r1.2.1 then r1.1
  else (checkLoop w hook fuel 0 r1.2.2 r1.1).1

/-- Health flag of the node a master index designates (reads _nodes at
that index; out-of-range reads yield the default node). -/
def nodeOkAt (st : RSMState) (m : Int) : Bool :=
  (st.nodes.getD m.toNat default).ok

/-- ReplicaSetMonitor::getMaster: run _check when no master is designated
or the designated node is not ok; then either return the master's address
or fail with the uassert 10009 message carrying the set name. -/
def getMaster (w : World) (hook : Bool) (fuel : Nat) (st : RSMState) :
    RSMState × Except String String :=
  let st1 := if st.master < 0 ∨ nodeOkAt st st.master = false then rsmCheck w hook fuel st else st
  if 0 ≤ st1.master then
    (st1, Except.ok (st1.nodes.getD st1.master.toNat default).addr)
  else
    (st1, Except.error ("ReplicaSetMonitor no master found for set: " ++ st1.name))

/-- Whether the scan of getSlave accepts index p: p differs from the
master index and nodes[p].ok holds. -/
def slaveQualifies (st : RSMState) (p : Nat) : Bool :=
  decide ((p : Int) ≠ st.master) && (st.nodes.getD p default).ok

/-- Sequence of indices p = (i + x) % len probed by getSlave's loop, in
loop order, where x = r % len is the random start offset. -/
def getSlaveProbes (st : RSMState) (r : Nat) : List Nat :=
  (List.range st.nodes.length).map
    (fun i => (i + r % st.nodes.length) % st.nodes.length)

/-- ReplicaSetMonitor::getSlave.  On an empty table the C++ faults: it
computes rand() % _nodes.size() with a zero divisor and, in the fallback,
reads _nodes[0] out of bounds; the model returns none there.  Otherwise:
start at x = r % len, scan cyclically for the first index p with p not the
master index and nodes[p].ok, and return its address; when no index
qualifies fall back to nodes[0].addr. -/
def getSlave? (st : RSMState) (r : Nat) : Option String :=
  match st.nodes with
  | [] => none
  | _ :: _ =>
    let len := st.nodes.length
    let x := r % len
    match (List.range len).find? (fun i => slaveQualifies st ((i + x) % len)) with
    | some i => some ((st.nodes.getD ((i + x) % len) default).addr)
    | none => some ((st.nodes.getD 0 default).addr)

/-- Seed loop of the ReplicaSetMonitor constructor: for each seed, skip it
when connect fails (log and continue), otherwise append a Node and run a
connection check on it (the conn of the node just pushed), stopping as
soon as a check reports that the node is primary.  No branch assigns the
master index. -/
def ctorLoop (w : World) (hook : Bool) : RSMState → List String → RSMState
  | st, [] => st
  | st, s :: ss =>
    if (w s).connectOk = false then ctorLoop w hook st ss
    else
      let st1 : RSMState := { st with nodes := st.nodes ++ [⟨s, true⟩] }
      let cr := checkConnection w hook st1.nodes s ""
      let st2 : RSMState := { st1 with nodes := cr.nodes }
      if cr.isMaster then st2 else ctorLoop w hook st2 ss

/-- ReplicaSetMonitor::ReplicaSetMonitor: start from an empty table with
master = -1 and run the seed loop. -/
def rsmCtor (w : World) (hook : Bool) (name : String) (servers : List String) : RSMState :=
  ctorLoop w hook { name := name, nodes := [], master := -1 } servers

/-- ReplicaSetMonitor::notifyFailure: when a master is designated and its
address equals the reported one, reset the master index to -1. -/
def notifyFailure (st : RSMState) (server : String) : RSMState :=
  if 0 ≤ st.master then
    if (st.nodes.getD st.master.toNat default).addr = server then
      { st with master := -1 }
    else st
  else st

/-- ReplicaSetMonitor::notifySlaveFailure: mark the node with the given
address not ok; no effect when the address is unknown. -/
def notifySlaveFailure (st : RSMState) (server : String) : RSMState :=
  let x := rsmFind st.nodes server
  if 0 ≤ x then { st with nodes := setNodeOk st.nodes x.toNat false } else st

/-- One cached credential of DBClientReplicaSet (struct AuthInfo). -/
structure AuthInfo where
  dbname : String
  username : String
  pwd : String
  digestPassword : Bool
deriving Repr, DecidableEq

/-- One DBClientConnection owned by the client, identified by the host it
was opened against, a generation number (bumped every time a new
connection object is constructed, so reuse of the same object is
observable), and its isFailed flag. -/
structure CachedConn where
  host : String
  gen : Nat
  failed : Bool
deriving Repr, DecidableEq

/-- Mutable state of one DBClientReplicaSet: the shared monitor state, the
cached primary and secondary connections with the hosts they were opened
against (empty string for the default-constructed HostAndPort), the cached
credentials, and the next connection generation number. -/
structure RSClientState where
  monitor : RSMState
  masterHost : String
  master : Option CachedConn
  slaveHost : String
  slave : Option CachedConn
  auths : List AuthInfo
  nextGen : Nat
deriving Repr, DecidableEq

/-- Client-side view of the network: the monitor's connection world and
hook, the fuel for _check, whether auth of given credentials succeeds on a
connection to a given host, and the rand() value consumed by getSlave. -/
structure ClientWorld where
  conns : World
  hook : Bool
  fuel : Nat
  authOk : String → AuthInfo → Bool
  rng : Nat

/-- DBClientReplicaSet::_auth: replay every cached credential on the given
connection, in order, logging a warning for each failure and never
stopping early.  Returns the credentials attempted and the sublist that
failed (those warned about). -/
def clientAuthReplay (cw : ClientWorld) (host : String) :
    List AuthInfo → List AuthInfo × List AuthInfo
  | [] => ([], [])
  | a :: rest =>
    let u := clientAuthReplay cw host rest
    if cw.authOk host a then (a :: u.1, u.2) else (a :: u.1, a :: u.2)

/-- Tail of DBClientReplicaSet::checkMaster once the cached connection was
not usable: ask the monitor for the master again, construct a fresh
connection to it, replay every cached credential on it, and install it as
the primary cache.  The replay list and the installation do not depend on
whether any replayed credential succeeds. -/
def checkMasterFresh (cw : ClientWorld) (st : RSClientState) :
    Except String (RSClientState × CachedConn × List AuthInfo) :=
  let g := getMaster cw.conns cw.hook cw.fuel st.monitor
  match g.2 with
  | Except.error e => Except.error e
  | Except.ok h =>
    let c : CachedConn := { host := h, gen := st.nextGen, failed := false }
    let att := (clientAuthReplay cw h st.auths).1
    Except.ok
      ({ st with
          monitor := g.1
          masterHost := h
          master := some c
          nextGen := st.nextGen + 1 }, c, att)

/-- DBClientReplicaSet::checkMaster: ask the monitor for the primary (this
may run _check and may fail with the no-master assertion); when the
address equals the cached masterHost and the cached connection has not
failed, return it (replaying nothing); when it matches but the connection
failed, tell the monitor and fall through to the fresh-connection path.
In the C++ a matching masterHost with no cached connection object would
dereference null; reachable states never exhibit it (the initial
masterHost is the default HostAndPort, never a node address) and the model
takes the fresh-connection path there.  Returns the new client state, the
connection handed to the caller, and the credentials replayed during the
call. -/
def checkMaster (cw : ClientWorld) (st : RSClientState) :
    Except String (RSClientState × CachedConn × List AuthInfo) :=
  let g := getMaster cw.conns cw.hook cw.fuel st.monitor
  match g.2 with
  | Except.error e => Except.error e
  | Except.ok h =>
    let st1 : RSClientState := { st with monitor := g.1 }
    if h = st1.masterHost then
      match st1.master with
      | some c =>
        if c.failed = false then Except.ok (st1, c, [])
        else
          checkMasterFresh cw
            { st1 with monitor := notifyFailure st1.monitor st1.masterHost }
      | none => checkMasterFresh cw st1
    else checkMasterFresh cw st1

/-- DBClientReplicaSet::checkSlave.  When a secondary connection is cached
and not failed, return it.  When it is cached but failed, report the
cached slaveHost to the monitor, then ask getSlave for an address: if that
address differs from the cached slaveHost a fresh connection is opened,
every cached credential replayed on it, and it is installed; if it equals
the cached slaveHost the old (failed) connection object is returned
unchanged, with nothing opened and nothing replayed.  getSlave faulting on
an empty table, and the null dereference the C++ would commit when no
connection is cached yet and getSlave returns the default slaveHost, are
modelled as none. -/
def checkSlave (cw : ClientWorld) (st : RSClientState) :
    Option (RSClientState × CachedConn × List AuthInfo) :=
  match st.slave with
  | some c =>
    if c.failed = false then some (st, c, [])
    else
      let st1 : RSClientState :=
        { st with monitor := notifySlaveFailure st.monitor st.slaveHost }
      match getSlave? st1.monitor cw.rng with
      | none => none
      | some h =>
        if h = st1.slaveHost then some (st1, c, [])
        else
          let newc : CachedConn := { host := h, gen := st1.nextGen, failed := false }
          let att := (clientAuthReplay cw h st1.auths).1
          some ({ st1 with
                   slaveHost := h
                   slave := some newc
                   nextGen := st1.nextGen + 1 }, newc, att)
  | none =>
    match getSlave? st.monitor cw.rng with
    | none => none
    | some h =>
      if h = st.slaveHost then none
      else
        let newc : CachedConn := { host := h, gen := st.nextGen, failed := false }
        let att := (clientAuthReplay cw h st.auths).1
        some ({ st with
                 slaveHost := h
                 slave := some newc
                 nextGen := st.nextGen + 1 }, newc, att)

/-- DBClientReplicaSet::auth: obtain the primary connection through
checkMaster, run auth with the new credentials on it; on success append an
AuthInfo to the cache and return true, on failure cache nothing and return
false. -/
def clientAuth (cw : ClientWorld) (st : RSClientState) (a : AuthInfo) :
    Except String (RSClientState × Bool) :=
  match checkMaster cw st with
  | Except.error e => Except.error e
  | Except.ok u =>
    if cw.authOk u.2.1.host a then
      Except.ok ({ u.1 with auths := u.1.auths ++ [a] }, true)
    else
      Except.ok (u.1, false)

/-- Destination of one attempt made by the routed query. -/
inductive RouteTarget
  | slave
  | master
deriving Repr, DecidableEq

/-- Modelled from the spec: the SecondaryOk bit of the query options
bitfield (QueryOption_SlaveOk, defined in a header that is not among the
sources; the spec fixes only that it is a single bit). -/
def QueryOption_SlaveOk : Nat := 4

/-- Outcomes of the individual attempts DBClientReplicaSet::query can
make: the i-th evaluation of checkSlave()->query(...) inside the retry
loop, and the evaluation of checkMaster()->query(...).  An error value is
a thrown DBException. -/
structure AttemptOracle where
  slaveAttempt : Nat → Except Unit Nat
  masterAttempt : Except Unit Nat

/-- DBClientReplicaSet::query (findOne and the query case of call share
the identical control flow): when the options carry the SecondaryOk bit,
run the body of the for loop for i = 0 and i = 1 — each iteration tries
checkSlave()->query and catches DBException, falling through to the next —
and after both failures issue the operation on checkMaster()'s connection,
whose outcome (success or exception) is the caller's; without the bit, a
single attempt on the primary.  The trace lists the attempts made. -/
def routedQuery (queryOptions : Nat) (w : AttemptOracle) :
    Except Unit Nat × List RouteTarget :=
  if queryOptions &&& QueryOption_SlaveOk ≠ 0 then
    match w.slaveAttempt 0 with
    | Except.ok v => (Except.ok v, [RouteTarget.slave])
    | Except.error _ =>
      match w.slaveAttempt 1 with
      | Except.ok v => (Except.ok v, [RouteTarget.slave, RouteTarget.slave])
      | Except.error _ =>
        (w.masterAttempt, [RouteTarget.slave, RouteTarget.slave, RouteTarget.master])
  else (w.masterAttempt, [RouteTarget.master])

/-- Whether the isMaster handshake against the given address reports that
the node is primary (false also when the probe throws). -/
def reportsPrimary (w : World) (a : String) : Bool :=
  match (w a).isMasterReply with
  | some o => o.isMaster
  | none => false

/-- Worlds in which no node ever reports itself primary. -/
def noPrimaryWorld (w : World) : Prop :=
  ∀ a, reportsPrimary w a = false

/-- Worlds whose isMaster replies carry no hosts and no passives arrays,
so checks never discover new nodes. -/
def noDiscovery (w : World) : Prop :=
  ∀ a o, (w a).isMasterReply = some o → o.hosts = none ∧ o.passives = none

/-- Stated from the claim, for comparison with the constructor: the seeds
kept, in order — every seed whose connect fails is skipped, every
successfully connected seed is kept, and the scan stops at the first
connected seed whose check reports primary. -/
def seedScanSpec (w : World) : List String → List String
  | [] => []
  | s :: ss =>
    if (w s).connectOk = false then seedScanSpec w ss
    else if reportsPrimary w s then [s] else s :: seedScanSpec w ss

/-- Concrete world in which every connection answers isMaster with false
and nothing else. -/
def wNoPrimary : World := fun _ =>
  { connectOk := true
    isMasterReply := some ⟨false, none, none, none⟩
    statusMembers := none }

/-- Concrete monitor state with one node and no designated master. -/
def stUnknownMaster : RSMState :=
  { name := "rs", nodes := [⟨"a:1", true⟩], master := -1 }

/-- Concrete monitor state whose designated master (index 1) is marked not
ok, so getMaster triggers the full check. -/
def stStaleMaster : RSMState :=
  { name := "rs", nodes := [⟨"a:1", true⟩, ⟨"b:1", false⟩], master := 1 }

/-- Concrete world whose node X:1 replies with a hosts array and a primary
hint naming Y:1. -/
def wHint : World := fun a =>
  if a = "X:1" then
    { connectOk := true
      isMasterReply := some ⟨false, some ["X:1", "Y:1"], none, some "Y:1"⟩
      statusMembers := none }
  else { connectOk := false, isMasterReply := none, statusMembers := none }

/-- Concrete world whose seed A:1 connects and reports itself primary. -/
def wPrimarySeed : World := fun a =>
  if a = "A:1" then
    { connectOk := true
      isMasterReply := some ⟨true, none, none, none⟩
      statusMembers := none }
  else { connectOk := false, isMasterReply := none, statusMembers := none }

/-- Concrete discovery-free world: seed A:1 refuses connections, C:1
reports primary, everything else connects and reports non-primary. -/
def wSeeds : World := fun a =>
  if a = "A:1" then
    { connectOk := false, isMasterReply := none, statusMembers := none }
  else if a = "C:1" then
    { connectOk := true
      isMasterReply := some ⟨true, none, none, none⟩
      statusMembers := none }
  else
    { connectOk := true
      isMasterReply := some ⟨false, none, none, none⟩
      statusMembers := none }

/-- Concrete monitor state with its master at index 0 and one healthy
secondary at index 1. -/
def stTwoNodes : RSMState :=
  { name := "rs", nodes := [⟨"a:1", true⟩, ⟨"b:1", true⟩], master := 0 }

/-- Concrete monitor state with an empty node table. -/
def stEmpty : RSMState := { name := "rs", nodes := [], master := -1 }

/-- Concrete attempt oracle: both secondary attempts throw, the primary
attempt succeeds. -/
def orBothFail : AttemptOracle :=
  { slaveAttempt := fun _ => Except.error (), masterAttempt := Except.ok 7 }

/-- Concrete monitor state whose master index 0 designates a healthy
node. -/
def monPrimary : RSMState :=
  { name := "rs", nodes := [⟨"m:1", true⟩], master := 0 }

/-- Concrete credentials. -/
def aCred : AuthInfo := { dbname := "admin", username := "alice", pwd := "pw", digestPassword := true }

/-- Concrete client whose cached primary connection to m:1 is healthy. -/
def stClient : RSClientState :=
  { monitor := monPrimary
    masterHost := "m:1"
    master := some ⟨"m:1", 0, false⟩
    slaveHost := ""
    slave := none
    auths := [aCred]
    nextGen := 1 }

/-- Concrete client world where every auth succeeds. -/
def cwAllAuth : ClientWorld :=
  { conns := wNoPrimary, hook := false, fuel := 3
    authOk := fun _ _ => true, rng := 0 }

/-- Concrete monitor knowing one node s:1 and no master. -/
def monOneSlave : RSMState :=
  { name := "rs", nodes := [⟨"s:1", true⟩], master := -1 }

/-- Concrete client whose cached secondary connection to s:1 has failed. -/
def stFailedSlave : RSClientState :=
  { monitor := monOneSlave
    masterHost := ""
    master := none
    slaveHost := "s:1"
    slave := some ⟨"s:1", 0, true⟩
    auths := []
    nextGen := 1 }

/-! Helper lemmas. -/

theorem checkConnection_out (w : World) (hook : Bool) (nodes : List Node)
    (a s : String) : (checkConnection w hook nodes a s).maybePrimaryOut = s := by
  cases h : (w a).isMasterReply <;> simp [checkConnection, h]

theorem checkConnection_isMaster (w : World) (hook : Bool) (nodes : List Node)
    (a s : String) : (checkConnection w hook nodes a s).isMaster = reportsPrimary w a := by
  cases h : (w a).isMasterReply <;> simp [checkConnection, reportsPrimary, h]

theorem setNodeOk_map_addr : ∀ (nodes : List Node) (i : Nat) (v : Bool),
    (setNodeOk nodes i v).map Node.addr = nodes.map Node.addr
  | [], _, _ => by simp [setNodeOk]
  | n :: rest, 0, v => by simp [setNodeOk]
  | n :: rest, i + 1, v => by
    have ih := setNodeOk_map_addr rest i v
    simp only [setNodeOk, List.getD_cons_succ, List.set_cons_succ, List.map_cons] at ih ⊢
    exact congrArg _ ih

theorem setNodeOk_length (nodes : List Node) (i : Nat) (v : Bool) :
    (setNodeOk nodes i v).length = nodes.length := by
  have h := congrArg List.length (setNodeOk_map_addr nodes i v)
  simpa using h

theorem checkStatusMembers_map_addr : ∀ (ms : List MemberEntry) (nodes : List Node),
    (checkStatusMembers nodes ms).map Node.addr = nodes.map Node.addr
  | [], nodes => by simp [checkStatusMembers]
  | m :: rest, nodes => by
    simp only [checkStatusMembers]
    rw [checkStatusMembers_map_addr rest]
    split
    · rfl
    · split <;> exact setNodeOk_map_addr ..

theorem rsmCheckStatus_map_addr (nodes : List Node) (status : Option (List MemberEntry)) :
    (rsmCheckStatus nodes status).map Node.addr = nodes.map Node.addr := by
  cases status <;> simp [rsmCheckStatus, checkStatusMembers_map_addr]

theorem rsmCheckStatus_length (nodes : List Node) (status : Option (List MemberEntry)) :
    (rsmCheckStatus nodes status).length = nodes.length := by
  have h := congrArg List.length (rsmCheckStatus_map_addr nodes status)
  simpa using h

theorem rsmCheckHosts_length_le : ∀ (hs : List String) (nodes : List Node) (ch : Bool),
    nodes.length ≤ (rsmCheckHosts nodes hs ch).1.length
  | [], nodes, ch => by simp [rsmCheckHosts]
  | t :: rest, nodes, ch => by
    simp only [rsmCheckHosts]
    split
    · exact rsmCheckHosts_length_le rest nodes ch
    · have h := rsmCheckHosts_length_le rest (nodes ++ [⟨t, true⟩]) true
      simp at h
      omega

theorem rsmCheckHosts_changed : ∀ (hs : List String) (nodes : List Node) (ch : Bool),
    (rsmCheckHosts nodes hs ch).2 =
      (ch || decide (nodes.length < (rsmCheckHosts nodes hs ch).1.length))
  | [], nodes, ch => by simp [rsmCheckHosts]
  | t :: rest, nodes, ch => by
    simp only [rsmCheckHosts]
    split
    · exact rsmCheckHosts_changed rest nodes ch
    · have h := rsmCheckHosts_length_le rest (nodes ++ [⟨t, true⟩]) true
      simp only [List.length_append, List.length_cons, List.length_nil] at h
      have hlt : nodes.length < (rsmCheckHosts (nodes ++ [⟨t, true⟩]) rest true).1.length := by
        omega
      rw [rsmCheckHosts_changed rest]
      simp [hlt]

theorem rsmCheckHosts_grows (hs : List String) (nodes : List Node) (ch : Bool) :
    (rsmCheckHosts nodes hs ch).2 = true →
      ch = true ∨ nodes.length < (rsmCheckHosts nodes hs ch).1.length := by
  rw [rsmCheckHosts_changed]
  simp only [Bool.or_eq_true, decide_eq_true_eq]
  exact id

theorem checkConnUpdate_changed (nodes : List Node) (o : IsMasterReply)
    (status : Option (List MemberEntry)) :
    (checkConnUpdate nodes o status).2 = true →
      nodes.length < (checkConnUpdate nodes o status).1.length := by
  intro h
  unfold checkConnUpdate at h ⊢
  simp only [rsmCheckStatus_length]
  cases ho : o.hosts with
  | none =>
    cases hp : o.passives with
    | none => simp [ho, hp] at h
    | some ps =>
      simp only [ho, hp] at h ⊢
      rcases rsmCheckHosts_grows ps nodes false h with h1 | h1
      · exact absurd h1 (by simp)
      · exact h1
  | some hs =>
    cases hp : o.passives with
    | none =>
      simp only [ho, hp] at h ⊢
      rcases rsmCheckHosts_grows hs nodes false h with h1 | h1
      · exact absurd h1 (by simp)
      · exact h1
    | some ps =>
      simp only [ho, hp] at h ⊢
      have hle1 := rsmCheckHosts_length_le hs nodes false
      have hle2 := rsmCheckHosts_length_le ps (rsmCheckHosts nodes hs false).1
        (rsmCheckHosts nodes hs false).2
      rcases rsmCheckHosts_grows ps (rsmCheckHosts nodes hs false).1
          (rsmCheckHosts nodes hs false).2 h with h1 | h1
      · rcases rsmCheckHosts_grows hs nodes false h1 with h2 | h2
        · exact absurd h2 (by simp)
        · omega
      · omega

theorem checkConnection_map_addr_noDiscovery (w : World) (hook : Bool)
    (nodes : List Node) (a s : String) (hnd : noDiscovery w) :
    (checkConnection w hook nodes a s).nodes.map Node.addr = nodes.map Node.addr := by
  cases h : (w a).isMasterReply with
  | none => simp [checkConnection, h]
  | some o =>
    obtain ⟨hh, hp⟩ := hnd a o h
    simp [checkConnection, h, checkConnUpdate, hh, hp, rsmCheckStatus_map_addr]

theorem checkLoop_noPrimary (w : World) (hook : Bool) (hw : noPrimaryWorld w) :
    ∀ (fuel i : Nat) (tried : Bool) (st : RSMState),
      (checkLoop w hook fuel i tried st).1.master = st.master ∧
      (checkLoop w hook fuel i tried st).2.1 = false ∧
      (checkLoop w hook fuel i tried st).1.name = st.name
  | 0, i, tried, st => by simp [checkLoop]
  | fuel + 1, i, tried, st => by
    by_cases hi : i < st.nodes.length
    · have hm : (checkConnection w hook st.nodes
          ((st.nodes.getD i default).addr) "").isMaster = false := by
        rw [checkConnection_isMaster]; exact hw _
      have ho : (checkConnection w hook st.nodes
          ((st.nodes.getD i default).addr) "").maybePrimaryOut = "" :=
        checkConnection_out ..
      have ih := checkLoop_noPrimary w hook hw fuel (i + 1) tried
        { st with nodes := (checkConnection w hook st.nodes
            ((st.nodes.getD i default).addr) "").nodes }
      simp only [checkLoop]
      rw [if_pos hi, if_neg (by rw [hm]; simp), if_neg (fun hcon => hcon.2 ho)]
      exact ih
    · simp [checkLoop, hi]

theorem rsmCheck_noPrimary (w : World) (hook : Bool) (fuel : Nat) (st : RSMState)
    (hw : noPrimaryWorld w) :
    (rsmCheck w hook fuel st).master = st.master ∧
    (rsmCheck w hook fuel st).name = st.name := by
  unfold rsmCheck
  have h1 := checkLoop_noPrimary w hook hw fuel 0 false st
  have h2 := checkLoop_noPrimary w hook hw fuel 0
    (checkLoop w hook fuel 0 false st).2.2 (checkLoop w hook fuel 0 false st).1
  simp only [h1.2.1, if_false]
  exact ⟨h2.1.trans h1.1, h2.2.2.trans h1.2.2⟩

theorem ctorLoop_master (w : World) (hook : Bool) :
    ∀ (ss : List String) (st : RSMState), (ctorLoop w hook st ss).master = st.master
  | [], st => by simp [ctorLoop]
  | s :: ss, st => by
    simp only [ctorLoop]
    split
    · exact ctorLoop_master w hook ss st
    · split
      · rfl
      · exact ctorLoop_master w hook ss _

theorem ctorLoop_scan (w : World) (hook : Bool) (hnd : noDiscovery w) :
    ∀ (ss : List String) (st : RSMState),
      (ctorLoop w hook st ss).nodes.map Node.addr =
        st.nodes.map Node.addr ++ seedScanSpec w ss
  | [], st => by simp [ctorLoop, seedScanSpec]
  | s :: ss, st => by
    simp only [ctorLoop, seedScanSpec]
    by_cases hc : (w s).connectOk = false
    · rw [if_pos hc, if_pos hc]
      exact ctorLoop_scan w hook hnd ss st
    · rw [if_neg hc, if_neg hc]
      have hmap : (checkConnection w hook (st.nodes ++ [⟨s, true⟩]) s "").nodes.map Node.addr
          = st.nodes.map Node.addr ++ [s] := by
        rw [checkConnection_map_addr_noDiscovery w hook _ s "" hnd]
        simp
      by_cases hp : reportsPrimary w s = true
      · have hm : (checkConnection w hook (st.nodes ++ [⟨s, true⟩]) s "").isMaster = true := by
          rw [checkConnection_isMaster]; exact hp
        simp [hm, hp, hmap]
      · have hm : (checkConnection w hook (st.nodes ++ [⟨s, true⟩]) s "").isMaster = false := by
          rw [checkConnection_isMaster]; simpa using hp
        have ihs := ctorLoop_scan w hook hnd ss
          { st with nodes := (checkConnection w hook (st.nodes ++ [⟨s, true⟩]) s "").nodes }
        simp only [hm, hp]
        simp only [Bool.false_eq_true, if_false]
        rw [ihs]
        simp [hmap]

theorem clientAuthReplay_fst (cw : ClientWorld) (h : String) :
    ∀ l : List AuthInfo, (clientAuthReplay cw h l).1 = l
  | [] => rfl
  | a :: rest => by
    simp only [clientAuthReplay]
    split <;> simp [clientAuthReplay_fst cw h rest]

theorem clientAuthReplay_snd (cw : ClientWorld) (h : String) :
    ∀ l : List AuthInfo,
      (clientAuthReplay cw h l).2 = l.filter (fun x => ! cw.authOk h x)
  | [] => rfl
  | a :: rest => by
    simp only [clientAuthReplay, List.filter]
    cases hx : cw.authOk h a <;>
      simp [hx, clientAuthReplay_snd cw h rest]

theorem getSlave?_eq (st : RSMState) (r : Nat) (h : st.nodes ≠ []) :
    getSlave? st r =
      match (List.range st.nodes.length).find?
          (fun i => slaveQualifies st ((i + r % st.nodes.length) % st.nodes.length)) with
      | some i => some ((st.nodes.getD ((i + r % st.nodes.length) % st.nodes.length) default).addr)
      | none => some ((st.nodes.getD 0 default).addr) := by
  unfold getSlave?
  split
  next heq => exact absurd heq h
  next => rfl

theorem getSlaveProbes_lt (st : RSMState) (r : Nat) (h : st.nodes.length ≠ 0) :
    ∀ p ∈ getSlaveProbes st r, p < st.nodes.length := by
  intro p hp
  simp only [getSlaveProbes, List.mem_map] at hp
  obtain ⟨i, _, rfl⟩ := hp
  exact Nat.mod_lt _ (Nat.pos_of_ne_zero h)

theorem mem_getSlaveProbes (st : RSMState) (r : Nat) (h : st.nodes.length ≠ 0)
    (p : Nat) (hp : p < st.nodes.length) : p ∈ getSlaveProbes st r := by
  simp only [getSlaveProbes, List.mem_map, List.mem_range]
  refine ⟨(p + (st.nodes.length - r % st.nodes.length)) % st.nodes.length,
    Nat.mod_lt _ (Nat.pos_of_ne_zero h), ?_⟩
  rw [Nat.mod_add_mod]
  have hx : r % st.nodes.length < st.nodes.length :=
    Nat.mod_lt _ (Nat.pos_of_ne_zero h)
  have hsum : p + (st.nodes.length - r % st.nodes.length) + r % st.nodes.length
      = p + st.nodes.length := by omega
  rw [hsum, Nat.add_mod_right, Nat.mod_eq_of_lt hp]

theorem wSeeds_noDiscovery : noDiscovery wSeeds := by
  intro a o h
  unfold wSeeds at h
  split at h
  · simp at h
  · split at h <;> (simp at h; simp [h.symm])

/-! Claim theorems. -/

/-- C1 counterexample: a state in which getMaster triggers the full check
not because the master index is -1 but because the designated master
(index 1) is marked not ok.  The world has no node reporting isMaster true
(its two nodes are shown), both rounds complete without a primary, yet the
master index is not left at -1 — it keeps its stale value 1 — and
getMaster returns that stale address instead of failing. -/
theorem getMaster_stale_master_counterexample :
    nodeOkAt stStaleMaster stStaleMaster.master = false ∧
    reportsPrimary wNoPrimary "a:1" = false ∧
    reportsPrimary wNoPrimary "b:1" = false ∧
    (rsmCheck wNoPrimary false 5 stStaleMaster).master = 1 ∧
    (getMaster wNoPrimary false 5 stStaleMaster).2 = Except.ok "b:1" :=
  ⟨by decide, by decide, by decide, by decide, rfl⟩

/-- C1 as amended: in a monitor state whose master index is -1 (so
getMaster triggers the full check), when no node of the world ever reports
isMaster true, the two rounds of the check leave the master index at -1,
and getMaster then fails with the no-master assertion message carrying the
set name instead of returning an address.  Holds for every fuel bound on
the check loop.  (When the check is instead triggered by a designated but
not-ok master, the index keeps its stale value and getMaster returns that
address — see the counterexample.) -/
theorem getMaster_no_primary_fails (w : World) (hook : Bool) (fuel : Nat)
    (st : RSMState) (hm : st.master = -1) (hw : noPrimaryWorld w) :
    (rsmCheck w hook fuel st).master = -1 ∧
    (getMaster w hook fuel st).2 =
      Except.error ("ReplicaSetMonitor no master found for set: " ++ st.name) := by
  have hc := rsmCheck_noPrimary w hook fuel st hw
  have hmaster : (rsmCheck w hook fuel st).master = -1 := hc.1.trans hm
  refine ⟨hmaster, ?_⟩
  unfold getMaster
  have hcond : st.master < 0 ∨ nodeOkAt st st.master = false := by
    left; rw [hm]; decide
  rw [if_pos hcond]
  rw [if_neg (by rw [hmaster]; decide)]
  rw [hc.2]

/-- C1 witness: a concrete one-node monitor with master = -1 probing a
world where every isMaster reply is false. -/
theorem getMaster_no_primary_fails_inst :
    (rsmCheck wNoPrimary false 5 stUnknownMaster).master = -1 ∧
    (getMaster wNoPrimary false 5 stUnknownMaster).2 =
      Except.error ("ReplicaSetMonitor no master found for set: " ++ stUnknownMaster.name) :=
  getMaster_no_primary_fails wNoPrimary false 5 stUnknownMaster rfl (fun _ => rfl)

/-- C2: the member loop of the status check skips a matched node at index
0.  Concretely: both listed members are down (health 0, state 8), the
claim says both matched nodes get ok = false, but the code's test
m <= 0 conflates the index 0 with the not-found sentinel -1, so the node
at index 0 keeps ok = true while the node at index 1 is marked false. -/
theorem checkStatus_skips_index_zero :
    rsmCheckStatus [⟨"a:27017", true⟩, ⟨"b:27017", true⟩]
        (some [⟨"a:27017", 0, 8⟩, ⟨"b:27017", 0, 8⟩]) =
      [⟨"a:27017", true⟩, ⟨"b:27017", false⟩] ∧
    rsmFind [⟨"a:27017", true⟩, ⟨"b:27017", true⟩] "a:27017" = 0 := by
  decide

/-- C3: the primary hint is never visible to the caller of the connection
check.  First conjunct: for every input, the maybePrimary reference
parameter is returned exactly as it was passed in (the local string
declared inside the try block shadows it).  The remaining conjuncts
evaluate the check at a concrete reply that carries both a hosts array and
a primary string: the hosts are incorporated (the branch recording the
hint did run) yet the caller's string stays empty, so the quick-check
branch of the full check can never fire. -/
theorem checkConnection_hint_not_propagated :
    (∀ (w : World) (hook : Bool) (nodes : List Node) (a s : String),
      (checkConnection w hook nodes a s).maybePrimaryOut = s) ∧
    (wHint "X:1").isMasterReply.map IsMasterReply.primary = some (some "Y:1") ∧
    (wHint "X:1").isMasterReply.map IsMasterReply.hosts = some (some ["X:1", "Y:1"]) ∧
    (checkConnection wHint true [⟨"X:1", true⟩] "X:1" "").nodes.map Node.addr
      = ["X:1", "Y:1"] ∧
    (checkConnection wHint true [⟨"X:1", true⟩] "X:1" "").maybePrimaryOut = "" :=
  ⟨fun w hook nodes a s => checkConnection_out w hook nodes a s, by decide⟩

/-- C4 counterexample: seed A:1 connects and its check reports primary, so
the claim says the master index equals that node's index 0 after
construction; but the constructor only stops iterating and never assigns
the master index, which remains -1. -/
theorem ctor_leaves_master_unset :
    (wPrimarySeed "A:1").connectOk = true ∧
    (wPrimarySeed "A:1").isMasterReply.map IsMasterReply.isMaster = some true ∧
    (rsmCtor wPrimarySeed false "rs" ["A:1"]).nodes.map Node.addr = ["A:1"] ∧
    ¬ (rsmCtor wPrimarySeed false "rs" ["A:1"]).master = 0 ∧
    (rsmCtor wPrimarySeed false "rs" ["A:1"]).master = -1 := by
  decide

/-- C4 as amended: after construction the master index is always -1 (no
branch of the constructor assigns it; it is only set by a later check);
and over a discovery-free world the node table is exactly the scan of the
seed list — seeds whose connect fails are skipped, every successfully
connected seed is appended in order, and iteration stops at the first seed
whose check reports primary. -/
theorem ctor_scan_no_master (w : World) (hook : Bool) (name : String)
    (servers : List String) :
    (rsmCtor w hook name servers).master = -1 ∧
    (noDiscovery w →
      (rsmCtor w hook name servers).nodes.map Node.addr = seedScanSpec w servers) := by
  unfold rsmCtor
  constructor
  · rw [ctorLoop_master w hook servers]
  · intro hnd
    rw [ctorLoop_scan w hook hnd servers]
    rfl

/-- C4 witness: seeds A:1 (connect refused), B:1 (secondary), C:1
(primary), D:1; the table holds B:1 and C:1, D:1 is never reached, and the
master index is -1. -/
theorem ctor_scan_no_master_inst :
    (rsmCtor wSeeds false "rs" ["A:1", "B:1", "C:1", "D:1"]).master = -1 ∧
    (rsmCtor wSeeds false "rs" ["A:1", "B:1", "C:1", "D:1"]).nodes.map Node.addr
      = seedScanSpec wSeeds ["A:1", "B:1", "C:1", "D:1"] :=
  ⟨(ctor_scan_no_master wSeeds false "rs" ["A:1", "B:1", "C:1", "D:1"]).1,
    (ctor_scan_no_master wSeeds false "rs" ["A:1", "B:1", "C:1", "D:1"]).2
      wSeeds_noDiscovery⟩

/-- C7: in one connection check the hook is invoked at most once, and when
it is invoked a hook was registered and the node table grew during the
call (at least one new node was appended by the host scan). -/
theorem hook_at_most_once (w : World) (hook : Bool) (nodes : List Node) (a s : String) :
    (checkConnection w hook nodes a s).hookCalls ≤ 1 ∧
    ((checkConnection w hook nodes a s).hookCalls = 1 →
      hook = true ∧ nodes.length < (checkConnection w hook nodes a s).nodes.length) := by
  cases h : (w a).isMasterReply with
  | none => simp [checkConnection, h]
  | some o =>
    simp only [checkConnection, h]
    by_cases hch : (checkConnUpdate nodes o ((w a).statusMembers)).2 = true
    · cases hhook : hook
      · simp [hch, hhook]
      · simp only [hch, hhook, Bool.and_self, if_true]
        exact ⟨le_refl 1, fun _ => ⟨trivial, checkConnUpdate_changed nodes o _ hch⟩⟩
    · simp [hch]

/-- C7 witness: probing X:1 of the hint world with a registered hook
appends Y:1, so the hook fires once and the table grew. -/
theorem hook_at_most_once_inst :
    true = true ∧
    ([(⟨"X:1", true⟩ : Node)] : List Node).length <
      (checkConnection wHint true [⟨"X:1", true⟩] "X:1" "").nodes.length :=
  (hook_at_most_once wHint true [⟨"X:1", true⟩] "X:1" "").2 (by decide)

/-- C5: on a non-empty node table, getSlave returns the address of the
first probed index (scanning cyclically from the random offset) that is
not the master index and whose node is ok, falling back to the address of
node 0 when no index qualifies; consequently, whenever some healthy
non-master index exists, the returned address is that of a healthy
non-master node. -/
theorem getSlave_picks_first_healthy (st : RSMState) (r : Nat) (h : st.nodes ≠ []) :
    (getSlave? st r =
      match (getSlaveProbes st r).find? (slaveQualifies st) with
      | some p => some ((st.nodes.getD p default).addr)
      | none => some ((st.nodes.getD 0 default).addr)) ∧
    ((∃ p, p < st.nodes.length ∧ slaveQualifies st p = true) →
      ∃ p, p < st.nodes.length ∧ (p : Int) ≠ st.master ∧
        (st.nodes.getD p default).ok = true ∧
        getSlave? st r = some ((st.nodes.getD p default).addr)) := by
  have hlen : st.nodes.length ≠ 0 := by
    have := List.length_pos.mpr h
    omega
  have hfind : (getSlaveProbes st r).find? (slaveQualifies st) =
      ((List.range st.nodes.length).find?
        (fun i => slaveQualifies st ((i + r % st.nodes.length) % st.nodes.length))).map
        (fun i => (i + r % st.nodes.length) % st.nodes.length) := by
    unfold getSlaveProbes
    rw [List.find?_map]
    rfl
  have hmain : getSlave? st r =
      (match (getSlaveProbes st r).find? (slaveQualifies st) with
      | some p => some ((st.nodes.getD p default).addr)
      | none => some ((st.nodes.getD 0 default).addr)) := by
    rw [getSlave?_eq st r h, hfind]
    cases hf : (List.range st.nodes.length).find?
        (fun i => slaveQualifies st ((i + r % st.nodes.length) % st.nodes.length)) with
    | none => rfl
    | some i => rfl
  refine ⟨hmain, ?_⟩
  rintro ⟨p, hp, hq⟩
  cases hf : (getSlaveProbes st r).find? (slaveQualifies st) with
  | none =>
    exact absurd hq (List.find?_eq_none.mp hf p (mem_getSlaveProbes st r hlen p hp))
  | some q =>
    have hq2 : slaveQualifies st q = true := List.find?_some hf
    have hqlt : q < st.nodes.length :=
      getSlaveProbes_lt st r hlen q (List.mem_of_find?_eq_some hf)
    have hok : (q : Int) ≠ st.master ∧ (st.nodes.getD q default).ok = true := by
      unfold slaveQualifies at hq2
      simpa using hq2
    refine ⟨q, hqlt, hok.1, hok.2, ?_⟩
    rw [hmain, hf]

/-- C5 witness: two nodes with the master at index 0 and a healthy node at
index 1; starting at offset 0 the scan skips the master and returns the
secondary's address. -/
theorem getSlave_picks_first_healthy_inst : getSlave? stTwoNodes 0 = some "b:1" := by
  rw [(getSlave_picks_first_healthy stTwoNodes 0 (by decide)).1]
  rfl

/-- C9: getSlave needs a non-empty node table.  On a non-empty table the
modulus divisor (the table length) is non-zero, every index the scan
probes is in bounds, and the call produces an address; on an empty table
the divisor of rand() % len is zero and the unconditional fallback read of
node 0 is out of bounds — the call faults (modelled as none). -/
theorem getSlave_needs_nonempty (st : RSMState) (r : Nat) :
    (st.nodes ≠ [] →
      st.nodes.length ≠ 0 ∧ (∀ p ∈ getSlaveProbes st r, p < st.nodes.length) ∧
      (getSlave? st r).isSome = true) ∧
    (st.nodes = [] → st.nodes.length = 0 ∧ getSlave? st r = none) := by
  constructor
  · intro h
    have hlen : st.nodes.length ≠ 0 := by
      have := List.length_pos.mpr h
      omega
    refine ⟨hlen, getSlaveProbes_lt st r hlen, ?_⟩
    rw [getSlave?_eq st r h]
    cases hf : (List.range st.nodes.length).find?
        (fun i => slaveQualifies st ((i + r % st.nodes.length) % st.nodes.length)) with
    | none => rfl
    | some i => rfl
  · intro h
    refine ⟨by simp [h], ?_⟩
    simp [getSlave?, h]

/-- C9 witness: a two-node table yields an address; the empty table
faults. -/
theorem getSlave_needs_nonempty_inst :
    (getSlave? stTwoNodes 0).isSome = true ∧ getSlave? stEmpty 5 = none :=
  ⟨((getSlave_needs_nonempty stTwoNodes 0).1 (by decide)).2.2,
    ((getSlave_needs_nonempty stEmpty 5).2 rfl).2⟩

/-- C6: with the SecondaryOk bit set, the routed query tries the secondary
connection, catching the thrown DBException and trying it a second time;
only after both secondary attempts fail is the operation issued on the
primary, whose outcome is the caller's.  Without the bit the operation
goes to the primary in a single attempt. -/
theorem routedQuery_policy (w : AttemptOracle) (opts : Nat) :
    (opts &&& QueryOption_SlaveOk = 0 →
      routedQuery opts w = (w.masterAttempt, [RouteTarget.master])) ∧
    (opts &&& QueryOption_SlaveOk ≠ 0 →
      (∀ v, w.slaveAttempt 0 = Except.ok v →
        routedQuery opts w = (Except.ok v, [RouteTarget.slave])) ∧
      (∀ e v, w.slaveAttempt 0 = Except.error e → w.slaveAttempt 1 = Except.ok v →
        routedQuery opts w = (Except.ok v, [RouteTarget.slave, RouteTarget.slave])) ∧
      (∀ e e2, w.slaveAttempt 0 = Except.error e → w.slaveAttempt 1 = Except.error e2 →
        routedQuery opts w =
          (w.masterAttempt, [RouteTarget.slave, RouteTarget.slave, RouteTarget.master]))) := by
  constructor
  · intro h
    simp [routedQuery, h]
  · intro h
    refine ⟨?_, ?_, ?_⟩
    · intro v hv
      simp [routedQuery, h, hv]
    · intro e v h0 h1
      simp [routedQuery, h, h0, h1]
    · intro e e2 h0 h1
      simp [routedQuery, h, h0, h1]

/-- C6 witness: both secondary attempts throw and the primary attempt
succeeds, so the slave-ok query runs slave, slave, master; without the
flag it runs master alone. -/
theorem routedQuery_policy_inst :
    routedQuery 4 orBothFail =
      (Except.ok 7, [RouteTarget.slave, RouteTarget.slave, RouteTarget.master]) ∧
    routedQuery 0 orBothFail = (Except.ok 7, [RouteTarget.master]) :=
  ⟨((routedQuery_policy orBothFail 4).2 (by decide)).2.2 () () rfl rfl,
    (routedQuery_policy orBothFail 0).1 (by decide)⟩

/-- C8: the client's auth runs on the primary connection obtained through
checkMaster and appends an AuthInfo to the cache exactly when that auth
succeeds (a failure caches nothing); the replay pass attempts every cached
credential, the warned sublist being exactly the failing ones; and a fresh
primary or secondary connection is always installed with the full cache
replayed on it, regardless of how many replayed credentials fail. -/
theorem auth_cache_and_replay (cw : ClientWorld) (st : RSClientState) (a : AuthInfo) :
    (∀ st1 m att, checkMaster cw st = Except.ok (st1, m, att) →
      clientAuth cw st a =
        Except.ok (if cw.authOk m.host a then ({ st1 with auths := st1.auths ++ [a] }, true)
          else (st1, false))) ∧
    ((clientAuthReplay cw st.masterHost st.auths).1 = st.auths ∧
      (clientAuthReplay cw st.masterHost st.auths).2 =
        st.auths.filter (fun x => ! cw.authOk st.masterHost x)) ∧
    (∀ h m2, getMaster cw.conns cw.hook cw.fuel st.monitor = (m2, Except.ok h) →
      checkMasterFresh cw st =
        Except.ok ({ st with
            monitor := m2
            masterHost := h
            master := some ⟨h, st.nextGen, false⟩
            nextGen := st.nextGen + 1 }, ⟨h, st.nextGen, false⟩, st.auths)) ∧
    (∀ h, st.slave = none → getSlave? st.monitor cw.rng = some h → ¬ h = st.slaveHost →
      checkSlave cw st =
        some ({ st with
            slaveHost := h
            slave := some ⟨h, st.nextGen, false⟩
            nextGen := st.nextGen + 1 }, ⟨h, st.nextGen, false⟩, st.auths)) := by
  refine ⟨?_, ⟨clientAuthReplay_fst cw st.masterHost st.auths,
    clientAuthReplay_snd cw st.masterHost st.auths⟩, ?_, ?_⟩
  · intro st1 m att hcm
    cases hauth : cw.authOk m.host a <;>
      simp [clientAuth, hcm, hauth]
  · intro h m2 hg
    simp [checkMasterFresh, hg, clientAuthReplay_fst]
  · intro h hs hg hne
    simp [checkSlave, hs, hg, hne, clientAuthReplay_fst]

/-- C8 witness: with a healthy cached primary and an all-accepting auth
oracle, auth succeeds and appends the credential to the cache. -/
theorem auth_cache_and_replay_inst :
    clientAuth cwAllAuth stClient aCred =
      Except.ok ({ stClient with auths := stClient.auths ++ [aCred] }, true) := by
  have h := (auth_cache_and_replay cwAllAuth stClient aCred).1
    stClient ⟨"m:1", 0, false⟩ [] rfl
  simpa [cwAllAuth] using h

/-- C10: when the cached secondary connection is marked failed and the
monitor hands back the same address as the cached slaveHost, checkSlave
returns the old failed connection object unchanged: no new connection is
constructed (the slave slot and its generation are untouched) and no
cached credentials are replayed (the replay list is empty); the only state
change is the slave-failure notification to the monitor. -/
theorem checkSlave_reuses_failed_conn (cw : ClientWorld) (st : RSClientState)
    (c : CachedConn) (hs : st.slave = some c) (hf : c.failed = true)
    (hg : getSlave? (notifySlaveFailure st.monitor st.slaveHost) cw.rng
      = some st.slaveHost) :
    checkSlave cw st =
      some ({ st with monitor := notifySlaveFailure st.monitor st.slaveHost }, c, []) := by
  simp [checkSlave, hs, hf, hg]

/-- C10 witness: the only known node is the failed secondary itself, so
after the failure notification getSlave falls back to the same address and
checkSlave hands back the failed connection object with no replay. -/
theorem checkSlave_reuses_failed_conn_inst :
    checkSlave cwAllAuth stFailedSlave =
      some ({ stFailedSlave with
          monitor := notifySlaveFailure stFailedSlave.monitor stFailedSlave.slaveHost },
        ⟨"s:1", 0, true⟩, []) :=
  checkSlave_reuses_failed_conn cwAllAuth stFailedSlave ⟨"s:1", 0, true⟩ rfl rfl (by decide)

end MongoRS
